import Mathlib

/-!
Verification of the rotation/projection/interaction engine of
`src/components/visuals/Globe.tsx`.

The component's numeric state (rotation in degrees, zoom scale, angular
velocity, drag snapshots, pointer samples) is embedded over `ℚ`: all the
arithmetic in the source is exact on the rational inputs considered here,
and `ℚ` keeps every definition executable.

The d3 library calls are treated as external collaborators:
`d3.geoOrthographic(...)` applied to a point is abstracted as a function
of its configuration parameters (scale, translate, rotation) — d3 point
projection does not depend on `clipAngle`, which only affects stream
clipping — and `d3.geoRotation(rot)([lng, lat])[0]` is abstracted as a
function `RotationLng`.  `d3.interpolateArray` on numeric triples and
`d3.easeCubicOut` are transcribed concretely from d3's sources.
-/

namespace GlobeSpec

/-- A point of interest, the fields of `City` that `Globe.tsx` reads
(`types/index.ts` itself is outside `src/`). -/
structure City where
  name : String
  lat : ℚ
  lng : ℚ
  category : String

/-- `const MIN_SCALE = 100;` (Globe.tsx line 70). -/
def MIN_SCALE : ℚ := 100

/-- `const MAX_SCALE = 2000;` (Globe.tsx line 71). -/
def MAX_SCALE : ℚ := 2000

/-- The imperative zoom handle, Globe.tsx line 218:
`setZoom: (v) => { targetScaleRef.current = MIN_SCALE + (v / 100) * (MAX_SCALE - MIN_SCALE); }`.
Returns the new `targetScale`. -/
def setZoom (v : ℚ) : ℚ := MIN_SCALE + v / 100 * (MAX_SCALE - MIN_SCALE)

/-- The per-frame scale easing, Globe.tsx line 292:
`if (Math.abs(targetScaleRef.current - scaleRef.current) > 0.1) scaleRef.current += (targetScaleRef.current - scaleRef.current) * 0.1;`.
Runs on every `render` call, with no dependence on the dragging or
animating state. -/
def scaleStep (current target : ℚ) : ℚ :=
  if 0.1 < |target - current| then current + (target - current) * 0.1 else current

/-- The wheel handler's update of `targetScale`, Globe.tsx line 504:
`targetScaleRef.current = Math.max(MIN_SCALE, Math.min(MAX_SCALE, targetScaleRef.current - e.deltaY * 0.5));`. -/
def wheelTarget (target deltaY : ℚ) : ℚ :=
  max MIN_SCALE (min MAX_SCALE (target - deltaY * 0.5))

/-- An event touching the zoom state: a wheel event or a frame tick. -/
inductive ZoomEvent where
  | wheel (deltaY : ℚ)
  | tick

/-- Effect of one `ZoomEvent` on the pair `(currentScale, targetScale)`:
a wheel event rewrites `targetScale` (line 504), a frame tick applies the
easing of line 292 to `currentScale`. -/
def applyZoomEvent : ℚ × ℚ → ZoomEvent → ℚ × ℚ
  | (c, t), ZoomEvent.wheel d => (c, wheelTarget t d)
  | (c, t), ZoomEvent.tick => (scaleStep c t, t)

/-- Folds a sequence of wheel events and frame ticks over the zoom state. -/
def runZoomEvents (s : ℚ × ℚ) (es : List ZoomEvent) : ℚ × ℚ :=
  es.foldl applyZoomEvent s

/-- One idle frame of the momentum decay, Globe.tsx line 411:
`momentumRef.current.y *= 0.92; momentumRef.current.x = (momentumRef.current.x - 0.05) * 0.95 + 0.05;`.
The frame loop (lines 408-414) applies this whenever neither a drag nor a
fly-to animation is active; it does not branch on `config.id`, so the
same decay runs in planet mode and in belt mode. -/
def momentumStep (m : ℚ × ℚ) : ℚ × ℚ :=
  ((m.1 - 0.05) * 0.95 + 0.05, m.2 * 0.92)

/-- `n` idle frames of momentum decay. -/
def momentumIter : ℕ → ℚ × ℚ → ℚ × ℚ
  | 0, m => m
  | n + 1, m => momentumIter n (momentumStep m)

/-- The initial angular velocity, Globe.tsx line 51:
`momentumRef = useRef({ x: 0.05, y: 0 })` (used for every mode). -/
def initialMomentum : ℚ × ℚ := (0.05, 0)

/-- The drag snapshot captured by `handleStart`, Globe.tsx line 445:
pointer-down position and the rotation at drag start. -/
structure DragState where
  startX : ℚ
  startY : ℚ
  startRot : ℚ × ℚ × ℚ

/-- The rotation written by `handleMove` while dragging, Globe.tsx line 452:
`rotationRef.current = [startRot[0] + (clientX - startX) * 0.25, startRot[1] - (clientY - startY) * 0.25, startRot[2]];`. -/
def handleMoveRot (d : DragState) (clientX clientY : ℚ) : ℚ × ℚ × ℚ :=
  (d.startRot.1 + (clientX - d.startX) * 0.25,
   d.startRot.2.1 - (clientY - d.startY) * 0.25,
   d.startRot.2.2)

/-- The rotation left after a sequence of pointer-move events during one
drag: each event overwrites the rotation from the drag snapshot, so the
fold ignores the accumulated rotation. -/
def dragRotationAfter (d : DragState) (r0 : ℚ × ℚ × ℚ) (moves : List (ℚ × ℚ)) : ℚ × ℚ × ℚ :=
  moves.foldl (fun _ m => handleMoveRot d m.1 m.2) r0

/-- A pointer sample stored in `lastMoveRef`, Globe.tsx lines 53 and 454:
`{ x: clientX, y: clientY, time: performance.now() }`. -/
structure MoveSample where
  x : ℚ
  y : ℚ
  time : ℚ

/-- The pointer-interaction state read and written by `handleMove` and
`handleEnd`: the momentum, the last pointer sample, and whether a drag is
active (`dragRef.current !== null`). -/
structure InteractionState where
  momentum : ℚ × ℚ
  lastMove : Option MoveSample
  dragging : Bool

/-- `handleMove`'s state update, Globe.tsx lines 451-455: while dragging,
momentum is reseeded from the delta to the previous sample
(`momentumRef.current = { x: (clientX - lastMoveRef.current.x) * 0.2, y: -(clientY - lastMoveRef.current.y) * 0.2 }`)
and the sample is replaced; outside a drag nothing in this state changes.
The rotation update of line 452 is modelled by `handleMoveRot`. -/
def handleMoveState (s : InteractionState) (clientX clientY now : ℚ) : InteractionState :=
  if s.dragging then
    { momentum :=
        match s.lastMove with
        | some l => ((clientX - l.x) * 0.2, -(clientY - l.y) * 0.2)
        | none => s.momentum
      lastMove := some ⟨clientX, clientY, now⟩
      dragging := true }
  else s

/-- `handleEnd`, Globe.tsx lines 464-467: clears the drag, leaving the
momentum exactly as the last `handleMove` set it. -/
def handleEndState (s : InteractionState) : InteractionState :=
  { s with dragging := false }

/-- `d3.easeCubicOut`: `cubicOut(t) = --t * t * t + 1`. -/
def easeCubicOut (t : ℚ) : ℚ := (t - 1) * (t - 1) * (t - 1) + 1

/-- `d3.interpolateNumber(a, b)(t) = a * (1 - t) + b * t`; applied
elementwise by `d3.interpolateArray` on numeric triples. -/
def interpolateNumber (a b t : ℚ) : ℚ := a * (1 - t) + b * t

/-- The fly-to progress at wall-clock time `t` for a start time `t0`,
Globe.tsx line 229: `Math.min((t - startTime) / duration, 1)` with
`duration = 1500`. -/
def flyToProgress (t0 t : ℚ) : ℚ := min ((t - t0) / 1500) 1

/-- The rotation written by the fly-to step at time `t`, Globe.tsx
lines 224-230: the eased `d3.interpolateArray` from the start rotation to
`[-city.lng, -city.lat, 0]`. -/
def flyToRotationAt (start : ℚ × ℚ × ℚ) (c : City) (t0 t : ℚ) : ℚ × ℚ × ℚ :=
  let e := easeCubicOut (flyToProgress t0 t)
  (interpolateNumber start.1 (-c.lng) e,
   interpolateNumber start.2.1 (-c.lat) e,
   interpolateNumber start.2.2 0 e)

/-- A rotation triple in degrees, `rotationRef.current`. -/
abbrev Rotation := ℚ × ℚ × ℚ

/-- Abstraction of the point projection of
`d3.geoOrthographic().scale(s).translate(t).rotate(r)`: a function of the
scale, the translate pair and the rotation, applied to a `(lng, lat)`
pair.  d3 point projection ignores `clipAngle` (clipping applies only to
geometry streams), so the adapter takes no clip argument. -/
abbrev OrthoProjection := ℚ → ℚ × ℚ → Rotation → ℚ × ℚ → ℚ × ℚ

/-- Abstraction of `d3.geoRotation(rot)([lng, lat])[0]`, the
rotation-relative longitude used for the facing test. -/
abbrev RotationLng := Rotation → ℚ × ℚ → ℚ

/-- The per-frame view state both `findCityAt` and `render` read:
viewport dimensions, `scaleRef.current` and `rotationRef.current`. -/
structure ViewState where
  width : ℚ
  height : ℚ
  scale : ℚ
  rot : Rotation

/-- The facing test shared by `findCityAt` (line 254) and `render`
(line 357): the rotation-relative longitude lies strictly between
-90 and 90. -/
def facingB (rotLng : RotationLng) (rot : Rotation) (p : ℚ × ℚ) : Bool :=
  decide (-90 < rotLng rot p) && decide (rotLng rot p < 90)

/-- The screen position `findCityAt` tests against the pointer,
Globe.tsx lines 240-254: the orthographic projection built from
`scaleRef.current`, translate `[width/2, height/2]` and
`rotationRef.current`, with the 2.2x radial exaggeration from the
viewport center in belt mode; `none` when the point is not a visible
candidate (planet mode, facing test fails). -/
def hitTestPos (ortho : OrthoProjection) (rotLng : RotationLng) (belt : Bool)
    (st : ViewState) (c : City) : Option (ℚ × ℚ) :=
  let coords := ortho st.scale (st.width / 2, st.height / 2) st.rot (c.lng, c.lat)
  let pos := if belt then
      (st.width / 2 + (coords.1 - st.width / 2) * 2.2,
       st.height / 2 + (coords.2 - st.height / 2) * 2.2)
    else coords
  let vis := belt || facingB rotLng st.rot (c.lng, c.lat)
  if vis then some pos else none

/-- The screen position at which `render` draws a marker, Globe.tsx
lines 307-310 and 351-359: the orthographic projection built from
`scaleRef.current`, translate `[width/2, height/2]` and
`rotationRef.current` (the `clipAngle` of line 311 does not affect point
projection); in belt mode the 2.2x exaggeration of line 355, otherwise
the raw coordinates when the facing test of line 357 passes, and no
marker when it fails. -/
def renderMarkerPos (ortho : OrthoProjection) (rotLng : RotationLng) (belt : Bool)
    (st : ViewState) (c : City) : Option (ℚ × ℚ) :=
  let coords := ortho st.scale (st.width / 2, st.height / 2) st.rot (c.lng, c.lat)
  if belt then
    some (st.width / 2 + (coords.1 - st.width / 2) * 2.2,
          st.height / 2 + (coords.2 - st.height / 2) * 2.2)
  else if facingB rotLng st.rot (c.lng, c.lat) then some coords
  else none

/-- The marker distance test of Globe.tsx line 256,
`Math.hypot(x - offsetX, y - offsetY) < 15`, stated on squares
(for nonnegative radius, `hypot d < 15` iff `dx^2 + dy^2 < 225`). -/
def withinHitRadius (pos q : ℚ × ℚ) : Bool :=
  decide ((pos.1 - q.1) * (pos.1 - q.1) + (pos.2 - q.2) * (pos.2 - q.2) < 225)

/-- The per-city predicate of `findCityAt`'s `.find` callback, Globe.tsx
lines 245-270: visible and within the 15px marker radius, or visible and
inside the active label box (the label-box test of lines 258-268, which
reads the canvas text metrics, is abstracted as `labelHit`). -/
def hitPred (ortho : OrthoProjection) (rotLng : RotationLng) (belt : Bool)
    (st : ViewState) (labelHit : City → ℚ × ℚ → Bool) (q : ℚ × ℚ) (c : City) : Bool :=
  let coords := ortho st.scale (st.width / 2, st.height / 2) st.rot (c.lng, c.lat)
  let pos := if belt then
      (st.width / 2 + (coords.1 - st.width / 2) * 2.2,
       st.height / 2 + (coords.2 - st.height / 2) * 2.2)
    else coords
  let vis := belt || facingB rotLng st.rot (c.lng, c.lat)
  (vis && withinHitRadius pos q) || (vis && labelHit c q)

/-- `findCityAt`, Globe.tsx lines 238-272: `null` when the viewport has
no width, otherwise the first city (in list order, as `Array.find`)
satisfying `hitPred`. -/
def findCityAt (ortho : OrthoProjection) (rotLng : RotationLng) (belt : Bool)
    (st : ViewState) (labelHit : City → ℚ × ℚ → Bool)
    (cities : List City) (q : ℚ × ℚ) : Option City :=
  if st.width = 0 then none
  else cities.find? (fun c => hitPred ortho rotLng belt st labelHit q c)

/-- A concrete projection collaborator for witnesses: every point maps to
the screen origin. -/
def orthoConst : OrthoProjection := fun _ _ _ _ => (0, 0)

/-- A concrete facing collaborator for witnesses: every point is 100
degrees from the view center, hence back-facing. -/
def rotLngBack : RotationLng := fun _ _ => 100

/-- A label collaborator for witnesses: no label box is active. -/
def labelHitNone : City → ℚ × ℚ → Bool := fun _ _ => false

/-- A concrete point of interest for witnesses. -/
def cityA : City := ⟨"A0", 0, 0, "HUB"⟩

/-- A concrete belt-mode view state for witnesses. -/
def beltView : ViewState := ⟨2, 2, 1, (0, 0, 0)⟩

/-- A concrete pre-release interaction state for the release-velocity
claims: dragging, with the previous pointer sample at the origin at
time 0. -/
def dragSample : InteractionState := ⟨(0, 0), some ⟨0, 0, 0⟩, true⟩

/-- C8: `setZoom` maps its percent input linearly onto
`[MIN_SCALE, MAX_SCALE]`: 0 yields `MIN_SCALE`, 100 yields `MAX_SCALE`,
and in general `setZoom v = MIN_SCALE + (v/100) * (MAX_SCALE - MIN_SCALE)`. -/
theorem setZoom_linear_map :
    setZoom 0 = MIN_SCALE ∧ setZoom 100 = MAX_SCALE ∧
    ∀ v : ℚ, setZoom v = MIN_SCALE + v / 100 * (MAX_SCALE - MIN_SCALE) := by
  refine ⟨?_, ?_, fun v => rfl⟩ <;> norm_num [setZoom, MIN_SCALE, MAX_SCALE]

/-- C10: `setZoom` applies its linear formula without clamping, so any
percent outside `[0, 100]` sets `targetScale` outside
`[MIN_SCALE, MAX_SCALE]`. -/
theorem setZoom_escapes_bounds (v : ℚ) (h : v < 0 ∨ 100 < v) :
    setZoom v = MIN_SCALE + v / 100 * (MAX_SCALE - MIN_SCALE) ∧
    (setZoom v < MIN_SCALE ∨ MAX_SCALE < setZoom v) := by
  refine ⟨rfl, ?_⟩
  have hz : setZoom v = 100 + 19 * v := by
    unfold setZoom MIN_SCALE MAX_SCALE; ring
  rcases h with h | h
  · exact Or.inl (by rw [hz]; unfold MIN_SCALE; linarith)
  · exact Or.inr (by rw [hz]; unfold MAX_SCALE; linarith)

/-- Witness for C10 at the concrete percent 200: the target scale lands
at 3900, above `MAX_SCALE`. -/
theorem setZoom_escapes_bounds_witness :
    setZoom 200 = MIN_SCALE + 200 / 100 * (MAX_SCALE - MIN_SCALE) ∧
    (setZoom 200 < MIN_SCALE ∨ MAX_SCALE < setZoom 200) :=
  setZoom_escapes_bounds 200 (Or.inr (by norm_num))

/-- C7's counterexample: at `currentScale = 350` and
`targetScale = 350.05` the scales differ, yet the frame tick leaves
`currentScale` unchanged instead of moving it a tenth of the remaining
distance — the easing has a 0.1 dead-band. -/
theorem scale_easing_counterexample :
    scaleStep 350 350.05 = 350 ∧ (350 : ℚ) ≠ 350 + (350.05 - 350) * 0.1 := by
  constructor
  · norm_num [scaleStep, abs_le]
  · norm_num

/-- C7 amended: on every frame tick, regardless of dragging or animating
state, `currentScale` moves toward `targetScale` by one tenth of the
remaining distance whenever that distance exceeds 0.1, and stays
unchanged when the distance is at most 0.1. -/
theorem scale_easing_deadband (c t : ℚ) :
    (0.1 < |t - c| → scaleStep c t = c + (t - c) * 0.1) ∧
    (|t - c| ≤ 0.1 → scaleStep c t = c) := by
  constructor
  · intro h; simp [scaleStep, h]
  · intro h; simp [scaleStep, not_lt.mpr h]

/-- Witness for C7's amended claim at `currentScale = 100`,
`targetScale = 300`: the tick moves the scale to 120. -/
theorem scale_easing_deadband_witness :
    scaleStep 100 300 = 100 + (300 - 100) * 0.1 :=
  (scale_easing_deadband 100 300).1 (by norm_num)

/-- One frame of easing keeps `currentScale` inside any interval
containing both scales. -/
theorem scaleStep_bounds (lo hi c t : ℚ) (h1 : lo ≤ c) (h2 : c ≤ hi)
    (h3 : lo ≤ t) (h4 : t ≤ hi) : lo ≤ scaleStep c t ∧ scaleStep c t ≤ hi := by
  unfold scaleStep
  split
  · constructor <;> linarith
  · exact ⟨h1, h2⟩

/-- One frame of easing never moves `currentScale` past `targetScale`. -/
theorem scaleStep_between (c t : ℚ) :
    min c t ≤ scaleStep c t ∧ scaleStep c t ≤ max c t := by
  have h1 := min_le_left c t
  have h2 := min_le_right c t
  have h3 := le_max_left c t
  have h4 := le_max_right c t
  unfold scaleStep
  split
  · constructor <;> linarith
  · exact ⟨h1, h3⟩

/-- Any interleaving of wheel events and frame ticks keeps both scales
inside `[MIN_SCALE, MAX_SCALE]` once they are there. -/
theorem runZoomEvents_invariant (es : List ZoomEvent) :
    ∀ s : ℚ × ℚ, MIN_SCALE ≤ s.1 → s.1 ≤ MAX_SCALE → MIN_SCALE ≤ s.2 → s.2 ≤ MAX_SCALE →
      MIN_SCALE ≤ (runZoomEvents s es).1 ∧ (runZoomEvents s es).1 ≤ MAX_SCALE ∧
      MIN_SCALE ≤ (runZoomEvents s es).2 ∧ (runZoomEvents s es).2 ≤ MAX_SCALE := by
  induction es with
  | nil => exact fun s h1 h2 h3 h4 => ⟨h1, h2, h3, h4⟩
  | cons e es ih =>
    intro s h1 h2 h3 h4
    cases e with
    | wheel d =>
      refine ih (applyZoomEvent s (ZoomEvent.wheel d)) ?_ ?_ ?_ ?_
      · exact h1
      · exact h2
      · exact le_max_left _ _
      · exact max_le (by norm_num [MIN_SCALE, MAX_SCALE]) (min_le_left _ _)
    | tick =>
      have hb := scaleStep_bounds MIN_SCALE MAX_SCALE s.1 s.2 h1 h2 h3 h4
      exact ih (applyZoomEvent s ZoomEvent.tick) hb.1 hb.2 h3 h4

/-- C9: starting with `currentScale` and `targetScale` inside
`[MIN_SCALE, MAX_SCALE]`, every interleaving of wheel events and frame
ticks keeps `currentScale` (and `targetScale`) inside the interval, and
a single easing tick never moves `currentScale` past `targetScale`. -/
theorem current_scale_bounded (c t : ℚ)
    (h1 : MIN_SCALE ≤ c) (h2 : c ≤ MAX_SCALE) (h3 : MIN_SCALE ≤ t) (h4 : t ≤ MAX_SCALE) :
    (∀ es : List ZoomEvent,
        MIN_SCALE ≤ (runZoomEvents (c, t) es).1 ∧ (runZoomEvents (c, t) es).1 ≤ MAX_SCALE ∧
        MIN_SCALE ≤ (runZoomEvents (c, t) es).2 ∧ (runZoomEvents (c, t) es).2 ≤ MAX_SCALE) ∧
    (min c t ≤ scaleStep c t ∧ scaleStep c t ≤ max c t) :=
  ⟨fun es => runZoomEvents_invariant es (c, t) h1 h2 h3 h4, scaleStep_between c t⟩

/-- Witness for C9 from the mount state `(350, 350)` under a hard
zoom-out wheel followed by a tick: `currentScale` stays in bounds. -/
theorem current_scale_bounded_witness :
    MIN_SCALE ≤ (runZoomEvents (350, 350) [ZoomEvent.wheel 10000, ZoomEvent.tick]).1 ∧
    (runZoomEvents (350, 350) [ZoomEvent.wheel 10000, ZoomEvent.tick]).1 ≤ MAX_SCALE := by
  have h := (current_scale_bounded 350 350 (by norm_num [MIN_SCALE]) (by norm_num [MAX_SCALE])
      (by norm_num [MIN_SCALE]) (by norm_num [MAX_SCALE])).1 [ZoomEvent.wheel 10000, ZoomEvent.tick]
  exact ⟨h.1, h.2.1⟩

/-- C2: in planet mode, once the fly-to animation reaches completion
(`progress = 1`, i.e. at least 1500ms after the start time) the rotation
is exactly `(-lng, -lat, 0)` for every start orientation; at every time
the rotation is the ease-out-cubic interpolation from the start
orientation to that target. -/
theorem flyTo_completes (start : ℚ × ℚ × ℚ) (c : City) (t0 t : ℚ)
    (h : t0 + 1500 ≤ t) :
    flyToRotationAt start c t0 t = (-c.lng, -c.lat, 0) ∧
    flyToRotationAt start c t0 t =
      (interpolateNumber start.1 (-c.lng) (easeCubicOut (flyToProgress t0 t)),
       interpolateNumber start.2.1 (-c.lat) (easeCubicOut (flyToProgress t0 t)),
       interpolateNumber start.2.2 0 (easeCubicOut (flyToProgress t0 t))) := by
  refine ⟨?_, rfl⟩
  have hp : flyToProgress t0 t = 1 := by
    unfold flyToProgress
    have : (1 : ℚ) ≤ (t - t0) / 1500 := by
      rw [le_div_iff₀ (by norm_num : (0 : ℚ) < 1500)]; linarith
    exact min_eq_right this
  unfold flyToRotationAt
  rw [hp]
  unfold easeCubicOut interpolateNumber
  norm_num

/-- Witness for C2: flying to the spec's scenario point
`(lat = 40, lng = -74)` from the start orientation `(10, 20, 5)` and
sampling 1500ms after start yields exactly `(74, -40, 0)`. -/
theorem flyTo_completes_witness :
    flyToRotationAt (10, 20, 5) ⟨"NYC", 40, -74, "HUB"⟩ 0 1500 = (74, -40, 0) :=
  (flyTo_completes (10, 20, 5) ⟨"NYC", 40, -74, "HUB"⟩ 0 1500 (by norm_num)).1

/-- C3: for a fixed drag snapshot, any two pointer-move sequences ending
at the same cumulative offset `(dx, dy)` from the drag start leave the
same rotation, namely
`(startYaw + dx * 0.25, startPitch - dy * 0.25, startRoll)` — the
orientation is a pure function of the cumulative delta, independent of
the path and of the rotation before the drag. -/
theorem drag_deterministic (d : DragState) (r0 r1 : ℚ × ℚ × ℚ)
    (p1 p2 : List (ℚ × ℚ)) (dx dy : ℚ) :
    dragRotationAfter d r0 (p1 ++ [(d.startX + dx, d.startY + dy)]) =
      dragRotationAfter d r1 (p2 ++ [(d.startX + dx, d.startY + dy)]) ∧
    dragRotationAfter d r0 (p1 ++ [(d.startX + dx, d.startY + dy)]) =
      (d.startRot.1 + dx * 0.25, d.startRot.2.1 - dy * 0.25, d.startRot.2.2) := by
  have hlast : ∀ (r : ℚ × ℚ × ℚ) (p : List (ℚ × ℚ)),
      dragRotationAfter d r (p ++ [(d.startX + dx, d.startY + dy)]) =
        handleMoveRot d (d.startX + dx) (d.startY + dy) := by
    intro r p
    unfold dragRotationAfter
    rw [List.foldl_append]
    rfl
  rw [hlast r0 p1, hlast r1 p2]
  refine ⟨rfl, ?_⟩
  unfold handleMoveRot
  norm_num

/-- The initial momentum `(0.05, 0)` is a fixed point of the idle decay:
the step pulls the yaw velocity toward 0.05, not toward 0, in every
mode. -/
theorem momentumIter_init_fixed (n : ℕ) :
    momentumIter n initialMomentum = initialMomentum := by
  induction n with
  | zero => rfl
  | succ n ih =>
    have hstep : momentumStep initialMomentum = initialMomentum := by
      unfold momentumStep initialMomentum
      norm_num
    show momentumIter n (momentumStep initialMomentum) = initialMomentum
    rw [hstep]; exact ih

/-- C4's counterexample: in belt mode the frame loop runs the very same
decay (lines 409-412 never read `config.id`), so from the mount-time
velocity `(0.05, 0)` the yaw velocity is still 0.05 — the idle baseline,
not zero — after 240 idle frames. -/
theorem momentum_belt_counterexample :
    (momentumIter 240 initialMomentum).1 = 0.05 ∧ (0.05 : ℚ) ≠ 0 := by
  refine ⟨?_, by norm_num⟩
  rw [momentumIter_init_fixed 240]
  norm_num [initialMomentum]

/-- C4 amended: under repeated idle frame ticks the yaw velocity
converges geometrically to the idle baseline 0.05 and the pitch velocity
to 0, in planet mode and belt mode alike (the loop's decay does not
depend on the mode): after `n` idle frames the velocity is exactly
`(0.05 + (x0 - 0.05) * 0.95 ^ n, y0 * 0.92 ^ n)`. -/
theorem idle_velocity_converges (n : ℕ) (m : ℚ × ℚ) :
    momentumIter n m = (0.05 + (m.1 - 0.05) * 0.95 ^ n, m.2 * 0.92 ^ n) := by
  induction n generalizing m with
  | zero =>
    obtain ⟨x, y⟩ := m
    simp only [momentumIter, pow_zero, mul_one, Prod.mk.injEq]
    constructor <;> ring
  | succ n ih =>
    obtain ⟨x, y⟩ := m
    show momentumIter n (momentumStep (x, y)) = _
    rw [ih (momentumStep (x, y))]
    simp only [momentumStep, Prod.mk.injEq]
    constructor <;> ring

/-- C5's counterexample: the last two pointer samples are 100ms apart
with a 10px horizontal delta, so a finite-difference velocity would be
`10 / 100 = 0.1`; the velocity actually left in effect on release is
`10 * 0.2 = 2`. The stored timestamps are never read. -/
theorem release_velocity_counterexample :
    (handleEndState (handleMoveState dragSample 10 0 100)).momentum.1 = 2 ∧
    ((10 : ℚ) - 0) / (100 - 0) ≠ 2 := by
  constructor
  · norm_num [handleEndState, handleMoveState, dragSample]
  · norm_num

/-- C5 amended: on the dragging-to-idle transition the angular velocity
left in effect is the last observed pointer delta times the fixed factor
0.2 (with the pitch sign flipped) — elapsed time between samples plays
no role, the timestamps being written but never read. -/
theorem release_velocity_scaled (s : InteractionState) (l : MoveSample)
    (clientX clientY now : ℚ) (hd : s.dragging = true) (hl : s.lastMove = some l) :
    (handleEndState (handleMoveState s clientX clientY now)).momentum =
      ((clientX - l.x) * 0.2, -(clientY - l.y) * 0.2) := by
  simp [handleEndState, handleMoveState, hd, hl]

/-- Witness for C5's amended claim on the concrete drag sample: the
release velocity is the 10px delta times 0.2. -/
theorem release_velocity_scaled_witness :
    (handleEndState (handleMoveState dragSample 10 0 100)).momentum =
      ((10 - 0) * 0.2, -((0 : ℚ) - 0) * 0.2) :=
  release_velocity_scaled dragSample ⟨0, 0, 0⟩ 10 0 100 rfl rfl

/-- C1: for every point of interest, rotation, scale and viewport — and
for every behaviour of the orthographic projection and rotation
collaborators — the screen position `findCityAt` tests against the
pointer coincides with the screen position at which the render pass
draws that point's marker, including the 2.2x radial exaggeration from
the viewport center in belt mode, and the two passes agree on which
points are visible. -/
theorem hit_matches_render (ortho : OrthoProjection) (rotLng : RotationLng)
    (belt : Bool) (st : ViewState) (c : City) :
    hitTestPos ortho rotLng belt st c = renderMarkerPos ortho rotLng belt st c := by
  unfold hitTestPos renderMarkerPos
  cases belt with
  | true => simp
  | false =>
    cases hfb : facingB rotLng st.rot (c.lng, c.lat) <;> simp [hfb]

/-- C6: the hit tester's facing skip is planet-only. In belt mode every
point of interest is a candidate: the per-point predicate degenerates to
"within the 15px radius of the exaggerated position, or inside the label
box", with no facing test, and a back-facing in-radius point makes
`findCityAt` return a hit; in planet mode a point failing the facing
test is skipped outright. -/
theorem belt_hit_includes_backfacing (ortho : OrthoProjection) (rotLng : RotationLng)
    (st : ViewState) (labelHit : City → ℚ × ℚ → Bool) (q : ℚ × ℚ) (c : City)
    (cities : List City) :
    (hitPred ortho rotLng true st labelHit q c =
      (withinHitRadius
        (st.width / 2 +
          ((ortho st.scale (st.width / 2, st.height / 2) st.rot (c.lng, c.lat)).1 - st.width / 2) * 2.2,
         st.height / 2 +
          ((ortho st.scale (st.width / 2, st.height / 2) st.rot (c.lng, c.lat)).2 - st.height / 2) * 2.2) q
        || labelHit c q)) ∧
    (facingB rotLng st.rot (c.lng, c.lat) = false →
      hitPred ortho rotLng false st labelHit q c = false) ∧
    (c ∈ cities → hitPred ortho rotLng true st labelHit q c = true → st.width ≠ 0 →
      (findCityAt ortho rotLng true st labelHit cities q).isSome) := by
  refine ⟨?_, ?_, ?_⟩
  · simp [hitPred, Bool.and_or_distrib_left]
  · intro hfb
    simp [hitPred, hfb]
  · intro hmem hpred hw
    unfold findCityAt
    rw [if_neg hw]
    rw [List.find?_isSome]
    exact ⟨c, hmem, hpred⟩

/-- Witness for C6: a single back-facing point (the facing collaborator
reports 100°) whose exaggerated position lies within the hit radius of
the query point is found in belt mode. -/
theorem belt_hit_includes_backfacing_witness :
    (findCityAt orthoConst rotLngBack true beltView labelHitNone [cityA] (1, 1)).isSome := by
  have h := belt_hit_includes_backfacing orthoConst rotLngBack beltView labelHitNone (1, 1)
    cityA [cityA]
  refine h.2.2 (by simp) ?_ (by norm_num [beltView])
  norm_num [hitPred, withinHitRadius, orthoConst, rotLngBack, labelHitNone, cityA, beltView]

end GlobeSpec
